import Mathlib

/-!
# Vulkan-renderer: capability checks of `HelloTriangleApplication`

A shallow embedding of `src/main.cpp`: the two membership checks
(`checkValidationLayerSupport`, `checkIfGLFWExtensionsAreSupported`) and their
caller `createInstance`, together with the properties the specification states
about them.

Conventions of the embedding
* A `const char*` / `char[N]` name is a `CStr`: the bytes of the buffer. The
  string it denotes ends at the first NUL byte, or at the end of the list (the
  terminating NUL of a buffer is left implicit).
* A pointer-plus-count array (`const char** glfwExtensions`,
  `glfwExtensionsCount`) is the list of its `count` entries.
* The driver and the window system are collaborators: what they answer is
  given by a `Platform` value.
* Member functions thread a `World` (the `instance` member and the trace of
  observable events) and return `Except String`, the error branch being a thrown
  `std::runtime_error` with its message.
-/

namespace VulkanRenderer

/-! ## C strings -/

/-- Bytes of a character buffer holding a NUL-terminated string. -/
abbrev CStr := List UInt8

/-- Bytes of an ASCII string literal. -/
def lit (s : String) : CStr := s.data.map fun c => UInt8.ofNat c.toNat

/-- The string a buffer denotes: the bytes before the first NUL (`strlen` many). -/
def cstrContent : CStr → List UInt8
  | [] => []
  | c :: rest => if c = 0 then [] else c :: cstrContent rest

/-- C `strcmp`: scans both strings byte by byte up to the first difference or
the terminator; the result is zero, negative or positive (only the sign is
specified by the C standard, the model returns -1, 0 or 1). Bytes compare as
`unsigned char`. -/
def strcmp : CStr → CStr → Int
  | [], [] => 0
  | [], b :: _ => if b = 0 then 0 else -1
  | a :: _, [] => if a = 0 then 0 else 1
  | a :: as, b :: bs =>
    if a = b then (if a = 0 then 0 else strcmp as bs)
    else if a.toNat < b.toNat then -1 else 1

/-- The constructor `std::string(const char*)`: copies the bytes before the NUL. -/
def stdString (p : CStr) : List UInt8 := cstrContent p

/-- The comparison `operator==(const std::string&, const char*)`: same length as
`strlen` of the right-hand side and the same bytes. -/
def stdStringEqCStr (s : List UInt8) (p : CStr) : Bool := s == cstrContent p

/-! ## The Vulkan and GLFW interface

Types and constants of `vulkan_core.h` that `createInstance` uses. -/

/-- Result code of a Vulkan command. -/
abbrev VkResult := Int

/-- The success code. -/
def VK_SUCCESS : VkResult := 0

/-- An instance handle. -/
abbrev VkInstance := Nat

/-- The enumerator `VK_STRUCTURE_TYPE_APPLICATION_INFO`. -/
def VK_STRUCTURE_TYPE_APPLICATION_INFO : Nat := 0

/-- The enumerator `VK_STRUCTURE_TYPE_INSTANCE_CREATE_INFO`. -/
def VK_STRUCTURE_TYPE_INSTANCE_CREATE_INFO : Nat := 1

/-- The header's version packing, a `uint32_t`. -/
def VK_MAKE_VERSION (major minor patch : Nat) : Nat :=
  ((major <<< 22) ||| (minor <<< 12) ||| patch) % 2 ^ 32

/-- Version 1.0 of the API. -/
def VK_API_VERSION_1_0 : Nat := VK_MAKE_VERSION 1 0 0

/-- The fields of `VkApplicationInfo` (`pNext` is never set and left out). -/
structure VkApplicationInfo where
  sType : Nat := 0
  pApplicationName : CStr := []
  applicationVersion : Nat := 0
  pEngineName : CStr := []
  engineVersion : Nat := 0
  apiVersion : Nat := 0
  deriving DecidableEq

/-- The fields of `VkInstanceCreateInfo` (`pNext` and `flags` are never set and
left out). The defaults are the value-initialised `createInfo{}`: zero counts
and null pointers, a null name array being the empty list. -/
structure VkInstanceCreateInfo where
  sType : Nat := 0
  pApplicationInfo : Option VkApplicationInfo := none
  enabledLayerCount : Nat := 0
  ppEnabledLayerNames : List CStr := []
  enabledExtensionCount : Nat := 0
  ppEnabledExtensionNames : List CStr := []
  deriving DecidableEq

/-- What the driver and the window system answer. -/
structure Platform where
  /-- The `layerName` of every `VkLayerProperties` that
  `vkEnumerateInstanceLayerProperties` reports. -/
  instanceLayerProperties : List CStr
  /-- The array `glfwGetRequiredInstanceExtensions` returns (empty for a null
  result with count 0). -/
  glfwRequiredInstanceExtensions : List CStr
  /-- The `extensionName` of every `VkExtensionProperties` that
  `vkEnumerateInstanceExtensionProperties` reports. -/
  instanceExtensionProperties : List CStr
  /-- The result code of `vkCreateInstance` for a create-info, and the handle it
  stores through `pInstance` (`none`: it stores nothing). -/
  vkCreateInstance : VkInstanceCreateInfo → VkResult × Option VkInstance

/-- Observable events of a run, in the order they happen. -/
inductive Event where
  | vkEnumerateInstanceLayerProperties
  | glfwGetRequiredInstanceExtensions
  | vkCreateInstance (createInfo : VkInstanceCreateInfo)
  | vkEnumerateInstanceExtensionProperties
  | cout (text : List UInt8)
  deriving DecidableEq

/-- The mutable state a member function sees: the member `instance` (`none`
while no handle has been stored) and the events so far. -/
structure World where
  vkInstance : Option VkInstance := none
  trace : List Event := []
  deriving DecidableEq

/-- Computations of member functions: a thrown `std::runtime_error` is the
error branch, carrying its message. -/
abbrev App := ExceptT String (StateM World)

deriving instance DecidableEq for Except

/-- Runs a computation from a state: what it returned or threw, and the state
it left. -/
def App.exec {α : Type} (m : App α) (w : World) : Except String α × World :=
  (ExceptT.run m).run w

/-- Records an event. -/
def emit (e : Event) : App Unit :=
  modify fun w => { w with trace := w.trace ++ [e] }

/-! ## `HelloTriangleApplication` -/

/-- The configuration members of the class: the required layers and the
build-time switch. -/
structure HelloTriangleApplication where
  validationLayers : List CStr
  enableValidationLayers : Bool

/-- The member initialiser of `validationLayers`. -/
def validationLayers : List CStr := [lit "VK_LAYER_KHRONOS_validation"]

/-- The application as the source declares it: `enableValidationLayers` is
false exactly when `NDEBUG` is defined. -/
def helloTriangleApplication (NDEBUG : Bool) : HelloTriangleApplication :=
  { validationLayers := validationLayers, enableValidationLayers := !NDEBUG }

/-- Inner loop of `checkValidationLayerSupport`: the value of `layerFound` after
scanning the available layers, leaving at the first match. -/
def layerFound (layerName : CStr) : List CStr → Bool
  | [] => false
  | layerProperties :: rest =>
    if strcmp layerName layerProperties = 0 then true
    else layerFound layerName rest

/-- Outer loop of `checkValidationLayerSupport`: returns false at the first
layer that was not found, true when the loop runs to its end. -/
def checkValidationLayerLoop (availableLayers : List CStr) : List CStr → Bool
  | [] => true
  | layerName :: rest =>
    if !layerFound layerName availableLayers then false
    else checkValidationLayerLoop availableLayers rest

/-- The member function `checkValidationLayerSupport`: queries the count, then
the layers, and runs the loops. -/
def checkValidationLayerSupport (app : HelloTriangleApplication) (p : Platform) :
    App Bool := do
  emit .vkEnumerateInstanceLayerProperties
  emit .vkEnumerateInstanceLayerProperties
  let availableLayers := p.instanceLayerProperties
  return checkValidationLayerLoop availableLayers app.validationLayers

/-- Inner loop of `checkIfGLFWExtensionsAreSupported`: the value of
`foundSupported` after scanning the supported extensions. -/
def foundSupported (glfwExtension : CStr) : List CStr → Bool
  | [] => false
  | extension :: rest =>
    if stdStringEqCStr (stdString glfwExtension) extension then true
    else foundSupported glfwExtension rest

/-- Outer loop of `checkIfGLFWExtensionsAreSupported`: the value of
`isNotSupported` when the loop is left. -/
def isNotSupported (supportedExtensions : List CStr) : List CStr → Bool
  | [] => false
  | glfwExtension :: rest =>
    if !foundSupported glfwExtension supportedExtensions then true
    else isNotSupported supportedExtensions rest

/-- The line printed when an extension is missing. -/
def msgNotSupported : List UInt8 := lit "OMG GLFW DOESN'T HAVE THE RIGHT EXTENSIONS\n"

/-- The line printed when every extension was found. -/
def msgSupported : List UInt8 := lit "GLFW has the right supported extensions I think\n"

/-- The member function `checkIfGLFWExtensionsAreSupported`. -/
def checkIfGLFWExtensionsAreSupported (supportedExtensions : List CStr)
    (glfwExtensions : List CStr) : App Unit := do
  if isNotSupported supportedExtensions glfwExtensions then
    emit (.cout msgNotSupported)
  else
    emit (.cout msgSupported)

/-- The loop of `createInstance` that prints the available extensions, one per
line after a tab. -/
def printExtensions : List CStr → App Unit
  | [] => pure ()
  | extension :: rest => do
    emit (.cout ([9] ++ cstrContent extension ++ [10]))
    printExtensions rest

/-- The message thrown when a validation layer is missing. -/
def errValidationLayers : String := "validation layers requested, but not available!"

/-- The message thrown when `vkCreateInstance` does not succeed. -/
def errCreateInstance : String := "failed to create instance!"

/-- The create-info `createInstance` has built when it calls `vkCreateInstance`:
the application info, GLFW's required extensions, and a layer count of 0. -/
def instanceCreateInfo (glfwExtensions : List CStr) : VkInstanceCreateInfo :=
  let appInfo : VkApplicationInfo :=
    { sType := VK_STRUCTURE_TYPE_APPLICATION_INFO
      pApplicationName := lit "Vulkan Test"
      applicationVersion := VK_MAKE_VERSION 1 0 0
      pEngineName := lit "No Engine"
      engineVersion := VK_MAKE_VERSION 1 0 0
      apiVersion := VK_API_VERSION_1_0 }
  let createInfo : VkInstanceCreateInfo :=
    { sType := VK_STRUCTURE_TYPE_INSTANCE_CREATE_INFO
      pApplicationInfo := some appInfo }
  let glfwExtensionCount := glfwExtensions.length
  let createInfo :=
    { createInfo with
      enabledExtensionCount := glfwExtensionCount
      ppEnabledExtensionNames := glfwExtensions }
  { createInfo with enabledLayerCount := 0 }

/-- The member function `createInstance`. The source returns nothing; the value
returned here is the local `createInfo` as it stands when the function ends,
which the source discards. -/
def createInstance (app : HelloTriangleApplication) (p : Platform) :
    App VkInstanceCreateInfo := do
  if app.enableValidationLayers then
    if !(← checkValidationLayerSupport app p) then
      throw errValidationLayers
  emit .glfwGetRequiredInstanceExtensions
  let glfwExtensions := p.glfwRequiredInstanceExtensions
  let createInfo := instanceCreateInfo glfwExtensions
  emit (.vkCreateInstance createInfo)
  let (result, handle) := p.vkCreateInstance createInfo
  match handle with
  | some h => modify fun w => { w with vkInstance := some h }
  | none => pure ()
  if result ≠ VK_SUCCESS then
    throw errCreateInstance
  emit .vkEnumerateInstanceExtensionProperties
  emit .vkEnumerateInstanceExtensionProperties
  let extensions := p.instanceExtensionProperties
  emit (.cout (lit "available extensions:\n"))
  printExtensions extensions
  checkIfGLFWExtensionsAreSupported extensions glfwExtensions
  if app.enableValidationLayers then
    return { createInfo with
             enabledLayerCount := app.validationLayers.length % 2 ^ 32
             ppEnabledLayerNames := app.validationLayers }
  else
    return { createInfo with enabledLayerCount := 0 }

/-! ## Descriptions of a run, used to state what `createInstance` does -/

/-- Events of the validation-layer check: the two driver queries when the layers
are enabled, nothing otherwise (the check is not called). -/
def layerQueryEvents (app : HelloTriangleApplication) : List Event :=
  if app.enableValidationLayers then
    [.vkEnumerateInstanceLayerProperties, .vkEnumerateInstanceLayerProperties]
  else []

/-- The state after the call of `vkCreateInstance`. -/
def worldAfterCreate (app : HelloTriangleApplication) (p : Platform) (w : World) : World :=
  let createInfo := instanceCreateInfo p.glfwRequiredInstanceExtensions
  { vkInstance :=
      match (p.vkCreateInstance createInfo).2 with
      | some h => some h
      | none => w.vkInstance
    trace := w.trace ++ layerQueryEvents app ++
      [.glfwGetRequiredInstanceExtensions, .vkCreateInstance createInfo] }

/-- Events after a successful `vkCreateInstance`: the extension queries, the
printed list, and the message of the GLFW extension check. -/
def reportEvents (p : Platform) : List Event :=
  [.vkEnumerateInstanceExtensionProperties, .vkEnumerateInstanceExtensionProperties,
    .cout (lit "available extensions:\n")] ++
  p.instanceExtensionProperties.map (fun e => Event.cout ([9] ++ cstrContent e ++ [10])) ++
  [.cout (if isNotSupported p.instanceExtensionProperties p.glfwRequiredInstanceExtensions
      then msgNotSupported else msgSupported)]

/-- The local `createInfo` at the end of `createInstance`. -/
def finalCreateInfo (app : HelloTriangleApplication) (p : Platform) : VkInstanceCreateInfo :=
  if app.enableValidationLayers then
    { instanceCreateInfo p.glfwRequiredInstanceExtensions with
      enabledLayerCount := app.validationLayers.length % 2 ^ 32
      ppEnabledLayerNames := app.validationLayers }
  else
    { instanceCreateInfo p.glfwRequiredInstanceExtensions with enabledLayerCount := 0 }

/-- A platform for concrete runs: the given layers, one required extension out
of two supported ones, and a driver that creates instance 1. -/
def demoPlatform (layers : List CStr) : Platform :=
  { instanceLayerProperties := layers
    glfwRequiredInstanceExtensions := [lit "VK_KHR_surface"]
    instanceExtensionProperties := [lit "VK_KHR_surface", lit "VK_KHR_xcb_surface"]
    vkCreateInstance := fun _ => (VK_SUCCESS, some 1) }

/-! ## Auxiliary lemmas -/

theorem strcmp_eq_zero_iff (a b : CStr) :
    strcmp a b = 0 ↔ cstrContent a = cstrContent b := by
  induction a generalizing b with
  | nil =>
    cases b with
    | nil => simp [strcmp, cstrContent]
    | cons y ys => by_cases hy : y = 0 <;> simp [strcmp, cstrContent, hy]
  | cons x xs ih =>
    cases b with
    | nil => by_cases hx : x = 0 <;> simp [strcmp, cstrContent, hx]
    | cons y ys =>
      by_cases hxy : x = y
      · subst hxy
        by_cases hx : x = 0
        · simp [strcmp, cstrContent, hx]
        · simp [strcmp, cstrContent, hx, ih]
      · have hne : (if x.toNat < y.toNat then (-1 : Int) else 1) ≠ 0 := by
          split <;> decide
        by_cases hx : x = 0 <;> by_cases hy : y = 0 <;>
          simp_all [strcmp, cstrContent]

theorem layerFound_iff (layerName : CStr) (available : List CStr) :
    layerFound layerName available = true ↔
      ∃ a ∈ available, cstrContent layerName = cstrContent a := by
  induction available with
  | nil => simp [layerFound]
  | cons y ys ih =>
    by_cases h : strcmp layerName y = 0
    · have h2 := (strcmp_eq_zero_iff layerName y).1 h
      simp [layerFound, h, h2]
    · have h2 : ¬ cstrContent layerName = cstrContent y :=
        fun hc => h ((strcmp_eq_zero_iff layerName y).2 hc)
      simp [layerFound, h, h2, ih]

theorem checkValidationLayerLoop_iff (available required : List CStr) :
    checkValidationLayerLoop available required = true ↔
      ∀ r ∈ required, ∃ a ∈ available, cstrContent r = cstrContent a := by
  induction required with
  | nil => simp [checkValidationLayerLoop]
  | cons x xs ih =>
    by_cases h : layerFound x available = true
    · simp [checkValidationLayerLoop, h, ih, (layerFound_iff x available).1 h]
    · have h2 := mt (layerFound_iff x available).2 h
      simp only [Bool.not_eq_true] at h
      simp only [checkValidationLayerLoop, h, Bool.not_false, if_true]
      constructor
      · intro hc; cases hc
      · intro hc; exact absurd (hc x (List.mem_cons_self x xs)) h2

theorem emit_exec (e : Event) (w : World) :
    (emit e).exec w = (.ok (), { w with trace := w.trace ++ [e] }) := rfl

theorem checkValidationLayerSupport_exec (app : HelloTriangleApplication)
    (p : Platform) (w : World) :
    (checkValidationLayerSupport app p).exec w =
      (.ok (checkValidationLayerLoop p.instanceLayerProperties app.validationLayers),
        { w with trace := w.trace ++ [.vkEnumerateInstanceLayerProperties,
                                       .vkEnumerateInstanceLayerProperties] }) := by
  simp [checkValidationLayerSupport, App.exec, emit, ExceptT.run, bind, ExceptT.bind,
    ExceptT.mk, ExceptT.bindCont, StateT.bind, StateT.run, pure, ExceptT.pure, StateT.pure,
    modify, modifyGet, MonadStateOf.modifyGet, StateT.modifyGet, liftM, monadLift,
    MonadLift.monadLift, ExceptT.lift, Functor.map, StateT.map]

theorem printExtensions_exec (exts : List CStr) (w : World) :
    (printExtensions exts).exec w =
      (.ok (), { w with trace := (w.trace ++
        List.map (fun e => Event.cout ([9] ++ cstrContent e ++ [10])) exts) }) := by
  induction exts generalizing w with
  | nil => simp [printExtensions, App.exec, ExceptT.run, pure, ExceptT.pure, ExceptT.mk,
      StateT.pure, StateT.run]
  | cons x xs ih =>
    have h := ih { w with trace := w.trace ++ [Event.cout ([9] ++ cstrContent x ++ [10])] }
    simp only [App.exec, ExceptT.run, StateT.run] at h ⊢
    simp [printExtensions, emit, bind, ExceptT.bind,
      ExceptT.mk, ExceptT.bindCont, StateT.bind, modify, modifyGet,
      MonadStateOf.modifyGet, StateT.modifyGet, liftM, monadLift,
      MonadLift.monadLift, ExceptT.lift, Functor.map, StateT.map, pure, StateT.pure]
    simpa using h

theorem checkIfGLFWExtensionsAreSupported_exec (supported glfw : List CStr) (w : World) :
    (checkIfGLFWExtensionsAreSupported supported glfw).exec w =
      (.ok (), { w with trace := (w.trace ++
        [Event.cout (if isNotSupported supported glfw then msgNotSupported else msgSupported)]) }) := by
  unfold checkIfGLFWExtensionsAreSupported
  split <;> simp_all [emit_exec]

theorem exec_bind {α β : Type} (m : App α) (f : α → App β) (w : World) :
    (m >>= f).exec w =
      match m.exec w with
      | (.ok a, w1) => (f a).exec w1
      | (.error e, w1) => (.error e, w1) := by
  simp only [App.exec, ExceptT.run, StateT.run, bind, ExceptT.bind, ExceptT.mk,
    ExceptT.bindCont, StateT.bind]
  rcases h : m w with ⟨r, w1⟩
  cases r <;> simp [pure, StateT.pure]

theorem exec_map {α β : Type} (f : α → β) (m : App α) (w : World) :
    (f <$> m).exec w =
      match m.exec w with
      | (.ok a, w1) => (.ok (f a), w1)
      | (.error e, w1) => (.error e, w1) := by
  simp only [App.exec, ExceptT.run, StateT.run, Functor.map, ExceptT.map, ExceptT.mk,
    bind, StateT.bind]
  rcases h : m w with ⟨r, w1⟩
  cases r <;> simp [pure, StateT.pure]

theorem exec_pure {α : Type} (a : α) (w : World) :
    (pure a : App α).exec w = (.ok a, w) := rfl

theorem exec_throw {α : Type} (e : String) (w : World) :
    (throw e : App α).exec w = (.error e, w) := rfl

theorem exec_modify (f : World → World) (w : World) :
    (modify f : App Unit).exec w = (.ok (), f w) := rfl

theorem createInstance_exec (app : HelloTriangleApplication) (p : Platform) (w : World) :
    (createInstance app p).exec w =
      if app.enableValidationLayers = true ∧
          checkValidationLayerLoop p.instanceLayerProperties app.validationLayers = false then
        (.error errValidationLayers, { w with trace := (w.trace ++ layerQueryEvents app) })
      else if (p.vkCreateInstance (instanceCreateInfo p.glfwRequiredInstanceExtensions)).1
          ≠ VK_SUCCESS then
        (.error errCreateInstance, worldAfterCreate app p w)
      else
        (.ok (finalCreateInfo app p),
          { worldAfterCreate app p w with
            trace := ((worldAfterCreate app p w).trace ++ reportEvents p) }) := by
  unfold createInstance
  rcases hc : p.vkCreateInstance (instanceCreateInfo p.glfwRequiredInstanceExtensions)
    with ⟨res, handle⟩
  by_cases he : app.enableValidationLayers = true <;>
  by_cases hl : checkValidationLayerLoop p.instanceLayerProperties app.validationLayers = true <;>
  by_cases hr : res = VK_SUCCESS <;>
  cases handle <;>
  simp [exec_bind, exec_map, exec_pure, exec_throw, exec_modify, emit_exec,
    checkValidationLayerSupport_exec, printExtensions_exec,
    checkIfGLFWExtensionsAreSupported_exec, he, hl, hr, hc, layerQueryEvents,
    worldAfterCreate, reportEvents, finalCreateInfo]

theorem checkValidationLayerLoop_eq_false_iff (available required : List CStr) :
    checkValidationLayerLoop available required = false ↔
      ∃ r ∈ required, ∀ a ∈ available, cstrContent r ≠ cstrContent a := by
  rw [← Bool.not_eq_true, checkValidationLayerLoop_iff]
  push_neg
  rfl

theorem foundSupported_eq_layerFound (name : CStr) (available : List CStr) :
    foundSupported name available = layerFound name available := by
  induction available with
  | nil => rfl
  | cons y ys ih =>
    by_cases h : cstrContent name = cstrContent y
    · simp [foundSupported, layerFound, stdStringEqCStr, stdString, h,
        (strcmp_eq_zero_iff name y).2 h]
    · have h2 : ¬ strcmp name y = 0 := fun hc => h ((strcmp_eq_zero_iff name y).1 hc)
      simp [foundSupported, layerFound, stdStringEqCStr, stdString, h, h2, ih]

theorem isNotSupported_eq_not_loop (available required : List CStr) :
    isNotSupported available required = !checkValidationLayerLoop available required := by
  induction required with
  | nil => rfl
  | cons x xs ih =>
    cases h : layerFound x available <;>
      simp [isNotSupported, checkValidationLayerLoop, foundSupported_eq_layerFound, h, ih]

/-! ## The claims -/

/-- C1: `checkValidationLayerSupport` returns true if and only if every required
layer denotes the same string as some layer the driver reports; with
`VK_LAYER_KHRONOS_validation` required it returns true when the driver reports
that layer and `VK_LAYER_other`, and false when it reports only `VK_LAYER_other`. -/
theorem checkValidationLayerSupport_true_iff :
    (∀ (R : List CStr) (e : Bool) (p : Platform) (w : World),
      ((checkValidationLayerSupport ⟨R, e⟩ p).exec w).1 = .ok true ↔
        ∀ r ∈ R, ∃ a ∈ p.instanceLayerProperties, cstrContent r = cstrContent a) ∧
    ((checkValidationLayerSupport ⟨[lit "VK_LAYER_KHRONOS_validation"], true⟩
        (demoPlatform [lit "VK_LAYER_KHRONOS_validation", lit "VK_LAYER_other"])).exec {}).1
      = .ok true ∧
    ((checkValidationLayerSupport ⟨[lit "VK_LAYER_KHRONOS_validation"], true⟩
        (demoPlatform [lit "VK_LAYER_other"])).exec {}).1 = .ok false := by
  refine ⟨?_, by decide, by decide⟩
  intro R e p w
  simp [checkValidationLayerSupport_exec, checkValidationLayerLoop_iff]

/-- C2: `createInstance` throws "validation layers requested, but not
available!" if and only if the layers are enabled and some required layer is not
reported by the driver; and when it throws that error the run consists of the two
layer queries only: `vkCreateInstance` has not been called and the member
`instance` is unchanged. -/
theorem createInstance_throws_iff_layer_missing
    (R : List CStr) (e : Bool) (p : Platform) (w : World) :
    (((createInstance ⟨R, e⟩ p).exec w).1 = .error errValidationLayers ↔
      (e = true ∧ ∃ r ∈ R, ∀ a ∈ p.instanceLayerProperties,
        cstrContent r ≠ cstrContent a)) ∧
    (((createInstance ⟨R, e⟩ p).exec w).1 = .error errValidationLayers →
      ((createInstance ⟨R, e⟩ p).exec w).2 =
        { vkInstance := w.vkInstance
          trace := w.trace ++ [Event.vkEnumerateInstanceLayerProperties,
            Event.vkEnumerateInstanceLayerProperties] }) := by
  have hne : errCreateInstance ≠ errValidationLayers := by decide
  rw [createInstance_exec]
  by_cases h : e = true ∧ checkValidationLayerLoop p.instanceLayerProperties R = false
  · have h2 := h
    rw [checkValidationLayerLoop_eq_false_iff] at h2
    simp only [h, and_self, if_true, true_iff, true_implies]
    exact ⟨⟨trivial, h2.2⟩, by simp [layerQueryEvents, h.1]⟩
  · have h2 := h
    rw [checkValidationLayerLoop_eq_false_iff] at h2
    simp only [if_neg h]
    split <;> simp [hne, h2]

/-- Witness of C2: with the layers enabled and a driver that reports only
`VK_LAYER_other`, the error is thrown after the two layer queries. -/
theorem createInstance_throws_iff_layer_missing_witness :
    ((createInstance (helloTriangleApplication false)
        (demoPlatform [lit "VK_LAYER_other"])).exec {}).1 = .error errValidationLayers ∧
    ((createInstance (helloTriangleApplication false)
        (demoPlatform [lit "VK_LAYER_other"])).exec {}).2 =
      { vkInstance := none
        trace := [Event.vkEnumerateInstanceLayerProperties,
          Event.vkEnumerateInstanceLayerProperties] } :=
  ⟨by decide,
    (createInstance_throws_iff_layer_missing validationLayers true
      (demoPlatform [lit "VK_LAYER_other"]) {}).2 (by decide)⟩

/-- C3: `checkIfGLFWExtensionsAreSupported` never throws and prints exactly one
of its two messages; what `createInstance` returns or throws is the same whatever
extensions the driver reports (so whatever that check finds), and it throws
exactly when the validation-layer check fails or `vkCreateInstance` does not
return `VK_SUCCESS`. -/
theorem glfw_extension_mismatch_is_log_only :
    (∀ (S G : List CStr) (w : World),
      (checkIfGLFWExtensionsAreSupported S G).exec w =
          (.ok (), { vkInstance := w.vkInstance
                     trace := w.trace ++ [Event.cout msgSupported] }) ∨
      (checkIfGLFWExtensionsAreSupported S G).exec w =
          (.ok (), { vkInstance := w.vkInstance
                     trace := w.trace ++ [Event.cout msgNotSupported] })) ∧
    (∀ (app : HelloTriangleApplication) (p : Platform) (S : List CStr) (w : World),
      ((createInstance app { p with instanceExtensionProperties := S }).exec w).1 =
        ((createInstance app p).exec w).1) ∧
    (∀ (app : HelloTriangleApplication) (p : Platform) (w : World),
      (∃ msg, ((createInstance app p).exec w).1 = .error msg) ↔
        ((app.enableValidationLayers = true ∧
          checkValidationLayerLoop p.instanceLayerProperties app.validationLayers = false) ∨
        (p.vkCreateInstance (instanceCreateInfo p.glfwRequiredInstanceExtensions)).1
          ≠ VK_SUCCESS)) := by
  refine ⟨?_, ?_, ?_⟩
  · intro S G w
    rw [checkIfGLFWExtensionsAreSupported_exec]
    cases isNotSupported S G <;> simp
  · intro app p S w
    simp only [createInstance_exec, finalCreateInfo]
    split
    · rfl
    · split <;> rfl
  · intro app p w
    rw [createInstance_exec]
    split
    · rename_i h
      simp [h]
    · rename_i h
      split
      · rename_i h2
        simp [h2]
      · rename_i h2
        simp only [false_or, h]
        constructor
        · rintro ⟨msg, hm⟩
          cases hm
        · intro hc
          exact absurd hc h2

/-- C4: permuting the required layers and permuting the layers the driver reports
does not change what `checkValidationLayerSupport` returns. -/
theorem checkValidationLayerSupport_perm (R R1 A A1 : List CStr) (e : Bool)
    (p : Platform) (w : World) (hR : R.Perm R1) (hA : A.Perm A1) :
    ((checkValidationLayerSupport ⟨R1, e⟩ { p with instanceLayerProperties := A1 }).exec w).1 =
      ((checkValidationLayerSupport ⟨R, e⟩ { p with instanceLayerProperties := A }).exec w).1 := by
  simp only [checkValidationLayerSupport_exec]
  congr 1
  rw [Bool.eq_iff_iff, checkValidationLayerLoop_iff, checkValidationLayerLoop_iff]
  constructor
  · intro h r hr
    obtain ⟨a, ha, hra⟩ := h r (hR.mem_iff.1 hr)
    exact ⟨a, hA.mem_iff.2 ha, hra⟩
  · intro h r hr
    obtain ⟨a, ha, hra⟩ := h r (hR.mem_iff.2 hr)
    exact ⟨a, hA.mem_iff.1 ha, hra⟩

/-- Witness of C4: two required layers and three reported layers, both lists
reordered. -/
theorem checkValidationLayerSupport_perm_witness :
    ((checkValidationLayerSupport ⟨[lit "b", lit "a"], true⟩
        { demoPlatform [] with instanceLayerProperties := [lit "b", lit "c", lit "a"] }).exec
        {}).1 =
      ((checkValidationLayerSupport ⟨[lit "a", lit "b"], true⟩
        { demoPlatform [] with instanceLayerProperties := [lit "c", lit "b", lit "a"] }).exec
        {}).1 :=
  checkValidationLayerSupport_perm [lit "a", lit "b"] [lit "b", lit "a"]
    [lit "c", lit "b", lit "a"] [lit "b", lit "c", lit "a"] true (demoPlatform []) {}
    (List.Perm.swap _ _ _) (List.Perm.swap _ _ _)

/-- C5: names are matched exactly: when the required name and the reported name
are not the same string, byte for byte, the check returns false; no case folding
and no trimming is applied. -/
theorem checkValidationLayerSupport_exact_match (a b : CStr) (e : Bool)
    (p : Platform) (w : World) (h : cstrContent a ≠ cstrContent b) :
    ((checkValidationLayerSupport ⟨[a], e⟩ { p with instanceLayerProperties := [b] }).exec w).1
      = .ok false := by
  rw [checkValidationLayerSupport_exec]
  simp only [Except.ok.injEq]
  rw [checkValidationLayerLoop_eq_false_iff]
  exact ⟨a, List.mem_singleton.2 rfl, fun x hx => by rw [List.mem_singleton.1 hx]; exact h⟩

/-- Witness of C5: required `Foo`, reported `foo`. -/
theorem checkValidationLayerSupport_exact_match_witness :
    cstrContent (lit "Foo") ≠ cstrContent (lit "foo") ∧
    ((checkValidationLayerSupport ⟨[lit "Foo"], true⟩
        { demoPlatform [] with instanceLayerProperties := [lit "foo"] }).exec {}).1
      = .ok false :=
  ⟨by decide,
    checkValidationLayerSupport_exact_match (lit "Foo") (lit "foo") true (demoPlatform []) {}
      (by decide)⟩

/-- C6: with no required layer `checkValidationLayerSupport` returns true,
whatever the driver reports, the empty list included. -/
theorem checkValidationLayerSupport_no_required (e : Bool) (p : Platform) (w : World) :
    ((checkValidationLayerSupport ⟨[], e⟩ p).exec w).1 = .ok true := by
  rw [checkValidationLayerSupport_exec]
  rfl

/-- C7: when the driver reports no layer and at least one layer is required,
`checkValidationLayerSupport` returns false. -/
theorem checkValidationLayerSupport_none_available (R : List CStr) (e : Bool)
    (p : Platform) (w : World) (hR : R ≠ []) :
    ((checkValidationLayerSupport ⟨R, e⟩ { p with instanceLayerProperties := [] }).exec w).1
      = .ok false := by
  rw [checkValidationLayerSupport_exec]
  cases R with
  | nil => exact absurd rfl hR
  | cons x xs => rfl

/-- Witness of C7: the application's own required list, no layer reported. -/
theorem checkValidationLayerSupport_none_available_witness :
    validationLayers ≠ [] ∧
    ((checkValidationLayerSupport ⟨validationLayers, true⟩
        { demoPlatform [lit "x"] with instanceLayerProperties := [] }).exec {}).1 = .ok false :=
  ⟨by decide,
    checkValidationLayerSupport_none_available validationLayers true (demoPlatform [lit "x"]) {}
      (by decide)⟩

/-- C8: `checkValidationLayerSupport` never throws: on every input it returns a
boolean, false when a required layer is missing; the error for a missing layer is
thrown by its caller `createInstance`. -/
theorem checkValidationLayerSupport_never_throws :
    (∀ (app : HelloTriangleApplication) (p : Platform) (w : World),
      ∃ b : Bool, ((checkValidationLayerSupport app p).exec w).1 = .ok b) ∧
    (∀ (app : HelloTriangleApplication) (p : Platform) (w : World),
      (∃ r ∈ app.validationLayers, ∀ a ∈ p.instanceLayerProperties,
          cstrContent r ≠ cstrContent a) →
        ((checkValidationLayerSupport app p).exec w).1 = .ok false) ∧
    (∀ (R : List CStr) (p : Platform) (w : World),
      (∃ r ∈ R, ∀ a ∈ p.instanceLayerProperties, cstrContent r ≠ cstrContent a) →
        ((createInstance ⟨R, true⟩ p).exec w).1 = .error errValidationLayers) := by
  refine ⟨?_, ?_, ?_⟩
  · intro app p w
    exact ⟨_, by rw [checkValidationLayerSupport_exec]⟩
  · intro app p w h
    rw [checkValidationLayerSupport_exec]
    simp only [Except.ok.injEq]
    exact (checkValidationLayerLoop_eq_false_iff _ _).2 h
  · intro R p w h
    rw [createInstance_exec]
    simp [(checkValidationLayerLoop_eq_false_iff _ _).2 h]

/-- Witness of C8: the required layer is missing from what the driver reports;
the check returns false and does not throw. -/
theorem checkValidationLayerSupport_never_throws_witness :
    ((checkValidationLayerSupport (helloTriangleApplication false)
        (demoPlatform [lit "VK_LAYER_other"])).exec {}).1 = .ok false :=
  checkValidationLayerSupport_never_throws.2.1 (helloTriangleApplication false)
    (demoPlatform [lit "VK_LAYER_other"]) {}
    ⟨lit "VK_LAYER_KHRONOS_validation", by decide, by decide⟩

/-- C9: the two membership checks decide the same predicate: on required names
`R` and available names `A`, `checkIfGLFWExtensionsAreSupported` prints its
success line exactly when `checkValidationLayerSupport` returns true, and its
failure line exactly when it returns false; with no required name it prints the
success line. -/
theorem glfw_check_agrees_with_layer_check (R A : List CStr) (e : Bool)
    (p : Platform) (w w1 : World) :
    (((checkIfGLFWExtensionsAreSupported A R).exec w).2.trace =
        w.trace ++ [Event.cout msgSupported] ↔
      ((checkValidationLayerSupport ⟨R, e⟩
        { p with instanceLayerProperties := A }).exec w1).1 = .ok true) ∧
    (((checkIfGLFWExtensionsAreSupported A R).exec w).2.trace =
        w.trace ++ [Event.cout msgNotSupported] ↔
      ((checkValidationLayerSupport ⟨R, e⟩
        { p with instanceLayerProperties := A }).exec w1).1 = .ok false) ∧
    ((checkIfGLFWExtensionsAreSupported A []).exec w).2.trace =
        w.trace ++ [Event.cout msgSupported] := by
  have hne : msgNotSupported ≠ msgSupported := by decide
  simp only [checkIfGLFWExtensionsAreSupported_exec, checkValidationLayerSupport_exec,
    isNotSupported_eq_not_loop]
  cases checkValidationLayerLoop A R <;> simp [hne, hne.symm, checkValidationLayerLoop]

/-- C10: every create-info that a run of `createInstance` passes to
`vkCreateInstance` has `enabledLayerCount` 0 and no layer names; a run that gets
past the validation-layer check makes that call exactly once; and when the run
ends normally with the layers enabled, the local create-info holds the number of
validation layers and their names, set after the call. -/
theorem createInstance_requests_no_layers (app : HelloTriangleApplication)
    (p : Platform) (w : World) :
    ∃ events : List Event,
      ((createInstance app p).exec w).2.trace = w.trace ++ events ∧
      (∀ ci, Event.vkCreateInstance ci ∈ events →
        ci.enabledLayerCount = 0 ∧ ci.ppEnabledLayerNames = []) ∧
      (¬ (app.enableValidationLayers = true ∧
          checkValidationLayerLoop p.instanceLayerProperties app.validationLayers = false) →
        events.filter (fun ev => match ev with
          | .vkCreateInstance _ => true
          | _ => false) =
          [Event.vkCreateInstance (instanceCreateInfo p.glfwRequiredInstanceExtensions)]) ∧
      (∀ ci, ((createInstance app p).exec w).1 = .ok ci →
        app.enableValidationLayers = true →
          ci.enabledLayerCount = app.validationLayers.length % 2 ^ 32 ∧
          ci.ppEnabledLayerNames = app.validationLayers ∧
          Event.vkCreateInstance (instanceCreateInfo p.glfwRequiredInstanceExtensions)
            ∈ events) := by
  rw [createInstance_exec]
  by_cases h : app.enableValidationLayers = true ∧
      checkValidationLayerLoop p.instanceLayerProperties app.validationLayers = false
  · refine ⟨layerQueryEvents app, by simp [h], ?_, fun hc => absurd h hc, ?_⟩
    · intro ci hci
      simp [layerQueryEvents, h.1] at hci
    · intro ci hci
      simp [h] at hci
  · by_cases h2 : (p.vkCreateInstance (instanceCreateInfo p.glfwRequiredInstanceExtensions)).1
        ≠ VK_SUCCESS
    · refine ⟨layerQueryEvents app ++ [Event.glfwGetRequiredInstanceExtensions,
        Event.vkCreateInstance (instanceCreateInfo p.glfwRequiredInstanceExtensions)],
        by simp [h, h2, worldAfterCreate], ?_, ?_, ?_⟩
      · intro ci hci
        have : ci = instanceCreateInfo p.glfwRequiredInstanceExtensions := by
          cases he : app.enableValidationLayers <;> simpa [layerQueryEvents, he] using hci
        subst this
        exact ⟨rfl, rfl⟩
      · intro _
        cases he : app.enableValidationLayers <;> simp [layerQueryEvents, he, List.filter]
      · intro ci hci
        simp [h, h2] at hci
    · refine ⟨layerQueryEvents app ++ [Event.glfwGetRequiredInstanceExtensions,
        Event.vkCreateInstance (instanceCreateInfo p.glfwRequiredInstanceExtensions)] ++
        reportEvents p, by simp [h, h2, worldAfterCreate], ?_, ?_, ?_⟩
      · intro ci hci
        have : ci = instanceCreateInfo p.glfwRequiredInstanceExtensions := by
          cases he : app.enableValidationLayers <;>
            simpa [layerQueryEvents, reportEvents, he] using hci
        subst this
        exact ⟨rfl, rfl⟩
      · intro _
        cases he : app.enableValidationLayers <;>
          simp [layerQueryEvents, reportEvents, he, List.filter, List.filter_append,
            List.filter_map, Function.comp_def]
      · intro ci hci he
        simp only [if_neg h, if_neg h2, Except.ok.injEq] at hci
        subst hci
        simp [finalCreateInfo, he]

/-- Witness of C10: layers enabled and available, the driver succeeds; the one
call of `vkCreateInstance` carries the create-info with layer count 0, and the
create-info at the end holds one layer. -/
theorem createInstance_requests_no_layers_witness :
    ∃ events : List Event,
      ((createInstance (helloTriangleApplication false)
        (demoPlatform [lit "VK_LAYER_KHRONOS_validation"])).exec {}).2.trace = [] ++ events ∧
      events.filter (fun ev => match ev with
          | .vkCreateInstance _ => true
          | _ => false) =
        [Event.vkCreateInstance (instanceCreateInfo [lit "VK_KHR_surface"])] ∧
      (finalCreateInfo (helloTriangleApplication false)
        (demoPlatform [lit "VK_LAYER_KHRONOS_validation"])).enabledLayerCount = 1 := by
  obtain ⟨events, h1, _, h3, h4⟩ :=
    createInstance_requests_no_layers (helloTriangleApplication false)
      (demoPlatform [lit "VK_LAYER_KHRONOS_validation"]) {}
  exact ⟨events, h1, h3 (by decide), (h4 _ (by decide) (by decide)).1⟩

end VulkanRenderer
